import Mathlib

/-!
Verification of the client-side synchronized traditional-time-unit clock of
`frontend/src/Panchang/Panchang.jsx`.

The JavaScript source is embedded shallowly:
* JavaScript numbers holding integer values become `Int`; `Math.floor(a / b)`
  on integers becomes `Int.fdiv` (floor division) and the JavaScript `%`
  remainder (sign of the dividend) becomes `Int.tmod`.
* A JavaScript value that may be `NaN` (from `Number(...)` on a non-numeric
  string or `new Date(...).getTime()` on an unparseable timestamp) becomes
  `Option Int`, with `none` standing for `NaN`; arithmetic on `none`
  propagates `none`, exactly as `NaN` propagates.
* The React effect of `HinduPanel` (lines 53-79) becomes a transition system:
  React runs the previous effect invocation's cleanup before re-running the
  effect body, and interval callbacks fire only while an interval is live.
-/

namespace Panchang

/-! ### TimeBasisConstants (Panchang.jsx lines 12-16) -/

def SEC_PRANA : Int := 4

def SEC_VINADI : Int := 24

def SEC_GHATI : Int := 24 * 60

def SEC_MUHURTA : Int := 48 * 60

def DAY : Int := 24 * 3600

/-! ### SecondsSinceSunriseConverter (`computeFromSeconds`, lines 11-43) -/

/-- The record returned by `computeFromSeconds` (lines 32-42). -/
structure UnitBreakdown where
  seconds : Int
  totalPranas : Int
  totalVinadis : Int
  ghatiCount : Int
  ghatiH : Int
  ghatiM : Int
  ghatiS : Int
  muhurtaCount : Int
  muhurtaH : Int
  muhurtaM : Int
  muhurtaS : Int
  vinadiInGhati : Int
  pranaInGhati : Int
  deriving Repr, DecidableEq

/-- Lines 18-42 of `computeFromSeconds`: the breakdown computed after the
normalization line, as a function of the (already normalized) value `s`.
`ghatiRem = s % SEC_GHATI` and `muhurtaRem = s % SEC_MUHURTA` are the local
variables of the source, inlined.  `Math.floor` applied to an integer-valued
quotient is `Int.fdiv`; applied to an integer (as in `Math.floor(x % 60)`)
it is the identity. -/
def breakdownOf (s : Int) : UnitBreakdown :=
  { seconds := s
    totalPranas := Int.fdiv s SEC_PRANA
    totalVinadis := Int.fdiv s SEC_VINADI
    ghatiCount := Int.tmod (Int.fdiv s SEC_GHATI) 60
    ghatiH := Int.fdiv (Int.tmod s SEC_GHATI) 3600
    ghatiM := Int.fdiv (Int.tmod (Int.tmod s SEC_GHATI) 3600) 60
    ghatiS := Int.tmod (Int.tmod s SEC_GHATI) 60
    muhurtaCount := Int.tmod (Int.fdiv s SEC_MUHURTA) 30
    muhurtaH := Int.fdiv (Int.tmod s SEC_MUHURTA) 3600
    muhurtaM := Int.fdiv (Int.tmod (Int.tmod s SEC_MUHURTA) 3600) 60
    muhurtaS := Int.tmod (Int.tmod s SEC_MUHURTA) 60
    vinadiInGhati := Int.fdiv (Int.tmod s SEC_GHATI) SEC_VINADI
    pranaInGhati := Int.fdiv (Int.tmod s SEC_GHATI) SEC_PRANA }

/-- `computeFromSeconds` (lines 11-43): line 17 normalizes a negative input by
adding one day, then lines 18-42 compute the breakdown. -/
def computeFromSeconds (s : Int) : UnitBreakdown :=
  breakdownOf (if s < 0 then s + DAY else s)

/-! ### ClockSynchronizer and FallbackClockSource (effect body, lines 58-77) -/

/-- The anchor payload `hinduTime` as the effect's guard and parses see it
(lines 58-62).  The outer `Option` of each field models the guard on line 58:
`seconds_since_sunrise != null` and `now_local_iso` truthy; `none` means the
guard fails for that field.  The inner `Option` models the parse on lines
59-60: `none` is `NaN` (`Number(...)` of a non-numeric string, or
`new Date(...).getTime()` of an unparseable timestamp). -/
structure HinduTimePayload where
  seconds_since_sunrise : Option (Option Int)
  now_local_iso : Option (Option Int)
  deriving Repr, DecidableEq

/-- Lines 68-71: the fallback starting value when no usable anchor exists.
`nowMs` is `now.getTime()` and `srMs` is the 06:30:00 local sunrise
`sr.getTime()`, both in milliseconds. -/
def fallbackInitial (nowMs srMs : Int) : Int :=
  let base := Int.fdiv (nowMs - srMs) 1000
  if 0 ≤ base then base else base + 24 * 3600

/-- Lines 58-77: the value passed to `setTick` when the panel opens.
If the guard on line 58 passes, lines 59-62 compute
`serverSeconds + Math.floor((Date.now() - serverNow.getTime()) / 1000)`,
which is `NaN` (here `none`) as soon as either parse is `NaN`; otherwise
lines 67-72 use the fallback.  `nowMs` is `Date.now()` and `srMs` the
fallback sunrise in milliseconds. -/
def initialTick (nowMs srMs : Int) (hinduTime : Option HinduTimePayload) : Option Int :=
  match hinduTime with
  | some p =>
    match p.seconds_since_sunrise, p.now_local_iso with
    | some rawSecs, some rawIso =>
      match rawSecs, rawIso with
      | some serverSeconds, some serverNowMs =>
        some (serverSeconds + Int.fdiv (nowMs - serverNowMs) 1000)
      | _, _ => none
    | _, _ => some (fallbackInitial nowMs srMs)
  | none => some (fallbackInitial nowMs srMs)

/-! ### TickScheduler (effect lifecycle, lines 53-79) -/

/-- The scheduler's state.  `tickRef` models `tickRef.current != null` (the
handle the component holds); `liveIntervals` counts the repeating callbacks
actually scheduled on the host, so that a failure to clear before re-creating
would be visible as `liveIntervals = 2`.  `tick` is the `tick` state variable
(`none` before any value is set; a `some` holding the current count). -/
structure SchedState where
  liveIntervals : Nat
  tickRef : Bool
  tick : Option Int
  deriving Repr, DecidableEq

/-- The state before the effect ever runs (lines 47-48). -/
def initState : SchedState :=
  { liveIntervals := 0, tickRef := false, tick := none }

/-- The cleanup on line 78 (also the body of the `!open` branch, line 55):
`if (tickRef.current) { clearInterval(tickRef.current); tickRef.current = null }`.
Clearing removes the one interval the held handle refers to. -/
def cleanup (st : SchedState) : SchedState :=
  if st.tickRef then
    { liveIntervals := st.liveIntervals - 1, tickRef := false, tick := st.tick }
  else st

/-- The callback body of `setInterval` (lines 64, 74): `setTick(prev => prev + 1)`.
No modulo is applied. -/
def tickStep (prev : Int) : Int := prev + 1

/-- One firing of a scheduled interval callback: the functional update
`prev => prev + 1` applied to the current `tick` state. -/
def tickEvent (st : SchedState) : SchedState :=
  { st with tick := Option.map tickStep st.tick }

/-- One invocation of the effect (lines 53-79) under React's semantics: the
previous invocation's cleanup runs first, then the body.  When `op` (the
`open` prop) is true, the body sets `tick` to the computed starting value and
schedules a fresh interval; when `op` is false, only the clearing on line 55
happens. -/
def effectRun (op : Bool) (nowMs srMs : Int) (hinduTime : Option HinduTimePayload)
    (st : SchedState) : SchedState :=
  let st1 := cleanup st
  if op then
    { liveIntervals := st1.liveIntervals + 1, tickRef := true,
      tick := initialTick nowMs srMs hinduTime }
  else st1

/-- The events that can happen to a `HinduPanel` instance: an effect
invocation (open/close of the panel or a new `hinduTime` payload), or the
firing of a live interval callback. -/
inductive SchedStep : SchedState → SchedState → Prop where
  | effect (op : Bool) (nowMs srMs : Int) (hinduTime : Option HinduTimePayload)
      (st : SchedState) : SchedStep st (effectRun op nowMs srMs hinduTime st)
  | tick (st : SchedState) (h : 0 < st.liveIntervals) : SchedStep st (tickEvent st)

/-- States reachable from the initial state through effect and tick events. -/
inductive Reachable : SchedState → Prop where
  | init : Reachable initState
  | step {st st' : SchedState} : Reachable st → SchedStep st st' → Reachable st'

/-! ### PresentationMapper (JSX lines 108-140 of `HinduPanel`) -/

/-- The snapshot display fields read off `hinduTime` by the JSX.  Each field is
`none` when the corresponding property chain (`hinduTime?.ghaTi?.count`, ...)
is nullish. -/
structure HinduSnapshot where
  seconds_since_sunrise : Option Int
  ghaTi_count : Option Int
  ghaTi_in_ghaTi_str : Option String
  muhurta_count : Option Int
  muhurta_in_muhurta_str : Option String
  vinadi_in_current_ghaTi : Option Int
  prana_in_current_ghaTi : Option Int
  total_pranas_since_sunrise : Option Int
  deriving Repr, DecidableEq

/-- A rendered display field: a number, a string, or the `'—'` placeholder. -/
inductive RVal where
  | num : Int → RVal
  | str : String → RVal
  | dash : RVal
  deriving Repr, DecidableEq

/-- `pad` (line 9): `String(n).padStart(len, '0')`. -/
def pad (n : Int) (len : Nat) : String :=
  let s := toString n
  String.mk (List.replicate (len - s.length) '0') ++ s

/-- Line 110: `derived ? derived.seconds : (hinduTime?.seconds_since_sunrise ?? '—')`. -/
def renderSeconds (hinduTime : Option HinduSnapshot) (derived : Option UnitBreakdown) : RVal :=
  match derived with
  | some d => RVal.num d.seconds
  | none =>
    match hinduTime with
    | some h =>
      match h.seconds_since_sunrise with
      | some v => RVal.num v
      | none => RVal.dash
    | none => RVal.dash

/-- Line 116: `hinduTime?.ghaTi?.count ?? (derived ? derived.ghatiCount : '—')`. -/
def renderGhatiCount (hinduTime : Option HinduSnapshot) (derived : Option UnitBreakdown) : RVal :=
  match hinduTime with
  | some h =>
    match h.ghaTi_count with
    | some v => RVal.num v
    | none =>
      match derived with
      | some d => RVal.num d.ghatiCount
      | none => RVal.dash
  | none =>
    match derived with
    | some d => RVal.num d.ghatiCount
    | none => RVal.dash

/-- Line 117: `derived ? pad(ghatiH):pad(ghatiM):pad(ghatiS) : (hinduTime?.ghaTi?.in_ghaTi_str ?? '—')`. -/
def renderGhatiHMS (hinduTime : Option HinduSnapshot) (derived : Option UnitBreakdown) : RVal :=
  match derived with
  | some d => RVal.str (pad d.ghatiH 2 ++ ":" ++ pad d.ghatiM 2 ++ ":" ++ pad d.ghatiS 2)
  | none =>
    match hinduTime with
    | some h =>
      match h.ghaTi_in_ghaTi_str with
      | some v => RVal.str v
      | none => RVal.dash
    | none => RVal.dash

/-- Line 124: `hinduTime?.muhurta?.count ?? (derived ? derived.muhurtaCount : '—')`. -/
def renderMuhurtaCount (hinduTime : Option HinduSnapshot) (derived : Option UnitBreakdown) : RVal :=
  match hinduTime with
  | some h =>
    match h.muhurta_count with
    | some v => RVal.num v
    | none =>
      match derived with
      | some d => RVal.num d.muhurtaCount
      | none => RVal.dash
  | none =>
    match derived with
    | some d => RVal.num d.muhurtaCount
    | none => RVal.dash

/-- Line 125: `derived ? pad(muhurtaH):pad(muhurtaM):pad(muhurtaS) : (hinduTime?.muhurta?.in_muhurta_str ?? '—')`. -/
def renderMuhurtaHMS (hinduTime : Option HinduSnapshot) (derived : Option UnitBreakdown) : RVal :=
  match derived with
  | some d => RVal.str (pad d.muhurtaH 2 ++ ":" ++ pad d.muhurtaM 2 ++ ":" ++ pad d.muhurtaS 2)
  | none =>
    match hinduTime with
    | some h =>
      match h.muhurta_in_muhurta_str with
      | some v => RVal.str v
      | none => RVal.dash
    | none => RVal.dash

/-- Line 131: `hinduTime?.vinadi?.in_current_ghaTi ?? (derived ? derived.vinadiInGhati : '—')`. -/
def renderVinadi (hinduTime : Option HinduSnapshot) (derived : Option UnitBreakdown) : RVal :=
  match hinduTime with
  | some h =>
    match h.vinadi_in_current_ghaTi with
    | some v => RVal.num v
    | none =>
      match derived with
      | some d => RVal.num d.vinadiInGhati
      | none => RVal.dash
  | none =>
    match derived with
    | some d => RVal.num d.vinadiInGhati
    | none => RVal.dash

/-- Line 137: `hinduTime?.prana?.in_current_ghaTi ?? (derived ? derived.pranaInGhati : '—')`. -/
def renderPrana (hinduTime : Option HinduSnapshot) (derived : Option UnitBreakdown) : RVal :=
  match hinduTime with
  | some h =>
    match h.prana_in_current_ghaTi with
    | some v => RVal.num v
    | none =>
      match derived with
      | some d => RVal.num d.pranaInGhati
      | none => RVal.dash
  | none =>
    match derived with
    | some d => RVal.num d.pranaInGhati
    | none => RVal.dash

/-- Line 138: `derived ? derived.totalPranas : (hinduTime?.total_pranas_since_sunrise ?? '—')`. -/
def renderTotalPranas (hinduTime : Option HinduSnapshot) (derived : Option UnitBreakdown) : RVal :=
  match derived with
  | some d => RVal.num d.totalPranas
  | none =>
    match hinduTime with
    | some h =>
      match h.total_pranas_since_sunrise with
      | some v => RVal.num v
      | none => RVal.dash
    | none => RVal.dash

/-! ### Theorems about the converter -/

/-- Claim C1: for every integer `s` in `[0, 86399]`, the converter's output
satisfies `ghatiCount·1440 + ghatiRemainderSeconds = s` and
`muhurtaCount·2880 + muhurtaRemainderSeconds = s`, with
`ghatiCount = ⌊s/1440⌋ mod 60` and `muhurtaCount = ⌊s/2880⌋ mod 30`; the
remainder seconds are recovered from the H:M:S decomposition the converter
returns. -/
theorem convert_reconstructs_seconds (s : Int) (h0 : 0 ≤ s) (h1 : s ≤ 86399) :
    (computeFromSeconds s).ghatiCount = Int.tmod (Int.fdiv s 1440) 60 ∧
    (computeFromSeconds s).ghatiCount * 1440 +
      ((computeFromSeconds s).ghatiH * 3600 + (computeFromSeconds s).ghatiM * 60 +
        (computeFromSeconds s).ghatiS) = s ∧
    (computeFromSeconds s).muhurtaCount = Int.tmod (Int.fdiv s 2880) 30 ∧
    (computeFromSeconds s).muhurtaCount * 2880 +
      ((computeFromSeconds s).muhurtaH * 3600 + (computeFromSeconds s).muhurtaM * 60 +
        (computeFromSeconds s).muhurtaS) = s := by
  have hs : ¬ s < 0 := not_lt.mpr h0
  simp only [computeFromSeconds, breakdownOf, SEC_GHATI, SEC_MUHURTA, if_neg hs]
  have e1440 : (24 : Int) * 60 = 1440 := by norm_num
  have e2880 : (48 : Int) * 60 = 2880 := by norm_num
  rw [e1440, e2880]
  rw [Int.tmod_eq_emod h0 (by norm_num : (0:Int) ≤ 1440),
      Int.tmod_eq_emod h0 (by norm_num : (0:Int) ≤ 2880),
      Int.fdiv_eq_ediv s (by norm_num : (0:Int) ≤ 1440),
      Int.fdiv_eq_ediv s (by norm_num : (0:Int) ≤ 2880)]
  have hm1440 : (0:Int) ≤ s % 1440 := Int.emod_nonneg s (by norm_num)
  have hm2880 : (0:Int) ≤ s % 2880 := Int.emod_nonneg s (by norm_num)
  have hd1440 : (0:Int) ≤ s / 1440 := Int.ediv_nonneg h0 (by norm_num)
  have hd2880 : (0:Int) ≤ s / 2880 := Int.ediv_nonneg h0 (by norm_num)
  rw [Int.tmod_eq_emod hd1440 (by norm_num : (0:Int) ≤ 60),
      Int.tmod_eq_emod hd2880 (by norm_num : (0:Int) ≤ 30),
      Int.fdiv_eq_ediv (s % 1440) (by norm_num : (0:Int) ≤ 3600),
      Int.fdiv_eq_ediv (s % 2880) (by norm_num : (0:Int) ≤ 3600),
      Int.tmod_eq_emod hm1440 (by norm_num : (0:Int) ≤ 3600),
      Int.tmod_eq_emod hm2880 (by norm_num : (0:Int) ≤ 3600),
      Int.tmod_eq_emod hm1440 (by norm_num : (0:Int) ≤ 60),
      Int.tmod_eq_emod hm2880 (by norm_num : (0:Int) ≤ 60)]
  have hq1440 : (0:Int) ≤ s % 1440 % 3600 := Int.emod_nonneg _ (by norm_num)
  have hq2880 : (0:Int) ≤ s % 2880 % 3600 := Int.emod_nonneg _ (by norm_num)
  rw [Int.fdiv_eq_ediv (s % 1440 % 3600) (by norm_num : (0:Int) ≤ 60),
      Int.fdiv_eq_ediv (s % 2880 % 3600) (by norm_num : (0:Int) ≤ 60)]
  omega

theorem convert_reconstructs_seconds_witness :
    (0 : Int) ≤ 5002 ∧ (5002 : Int) ≤ 86399 ∧
    ((computeFromSeconds 5002).ghatiCount = Int.tmod (Int.fdiv 5002 1440) 60 ∧
     (computeFromSeconds 5002).ghatiCount * 1440 +
       ((computeFromSeconds 5002).ghatiH * 3600 + (computeFromSeconds 5002).ghatiM * 60 +
         (computeFromSeconds 5002).ghatiS) = 5002 ∧
     (computeFromSeconds 5002).muhurtaCount = Int.tmod (Int.fdiv 5002 2880) 30 ∧
     (computeFromSeconds 5002).muhurtaCount * 2880 +
       ((computeFromSeconds 5002).muhurtaH * 3600 + (computeFromSeconds 5002).muhurtaM * 60 +
         (computeFromSeconds 5002).muhurtaS) = 5002) :=
  ⟨by norm_num, by norm_num,
   convert_reconstructs_seconds 5002 (by norm_num) (by norm_num)⟩

/-- Claim C6 (counterexample): the claim asserts that `convert(86399)` has a
muhurta remainder of 0:11:59, but the muhurta remainder is
`86399 mod 2880 = 2879` seconds, whose M component is 47, not 11. -/
theorem convert_86399_cex :
    ¬ ((computeFromSeconds 86399).muhurtaH = 0 ∧
       (computeFromSeconds 86399).muhurtaM = 11 ∧
       (computeFromSeconds 86399).muhurtaS = 59) := by decide

/-- Claim C6 (amended): `convert(86399)` returns `ghatiCount = 59` with ghati
remainder H:M:S equal to 0:23:59, and `muhurtaCount = 29` with muhurta
remainder H:M:S equal to 0:47:59 (the remainder is 2879 seconds). -/
theorem convert_86399_values :
    (computeFromSeconds 86399).ghatiCount = 59 ∧
    (computeFromSeconds 86399).ghatiH = 0 ∧
    (computeFromSeconds 86399).ghatiM = 23 ∧
    (computeFromSeconds 86399).ghatiS = 59 ∧
    (computeFromSeconds 86399).muhurtaCount = 29 ∧
    (computeFromSeconds 86399).muhurtaH = 0 ∧
    (computeFromSeconds 86399).muhurtaM = 47 ∧
    (computeFromSeconds 86399).muhurtaS = 59 := by decide

/-- Claim C7: for every negative input `s` with `s ≥ -86400`, the converter
adds 86400 exactly once and then computes the same breakdown as for the
normalized value. -/
theorem convert_negative_normalizes (s : Int) (hneg : s < 0) (hlb : -86400 ≤ s) :
    computeFromSeconds s = computeFromSeconds (s + 86400) := by
  unfold computeFromSeconds
  have h1 : (if s < 0 then s + DAY else s) = s + 86400 := by
    rw [if_pos hneg]
    norm_num [DAY]
  have h2 : (if s + 86400 < 0 then s + 86400 + DAY else s + 86400) = s + 86400 :=
    if_neg (by omega)
  rw [h1, h2]

theorem convert_negative_normalizes_witness :
    (-10 : Int) < 0 ∧ (-86400 : Int) ≤ -10 ∧
    computeFromSeconds (-10) = computeFromSeconds 86390 := by
  refine ⟨by norm_num, by norm_num, ?_⟩
  have h := convert_negative_normalizes (-10) (by norm_num) (by norm_num)
  rw [show (-10 : Int) + 86400 = 86390 by norm_num] at h
  exact h

/-- Claim C10: for every nonnegative input `s`, the hour component of both
H:M:S decompositions is zero, because the ghati remainder is below 1440 and
the muhurta remainder below 2880, both below 3600. -/
theorem convert_hours_zero (s : Int) (h0 : 0 ≤ s) :
    (computeFromSeconds s).ghatiH = 0 ∧ (computeFromSeconds s).muhurtaH = 0 := by
  have hs : ¬ s < 0 := not_lt.mpr h0
  simp only [computeFromSeconds, breakdownOf, SEC_GHATI, SEC_MUHURTA, if_neg hs]
  have e1440 : (24 : Int) * 60 = 1440 := by norm_num
  have e2880 : (48 : Int) * 60 = 2880 := by norm_num
  rw [e1440, e2880]
  rw [Int.tmod_eq_emod h0 (by norm_num : (0:Int) ≤ 1440),
      Int.tmod_eq_emod h0 (by norm_num : (0:Int) ≤ 2880),
      Int.fdiv_eq_ediv (s % 1440) (by norm_num : (0:Int) ≤ 3600),
      Int.fdiv_eq_ediv (s % 2880) (by norm_num : (0:Int) ≤ 3600)]
  omega

theorem convert_hours_zero_witness :
    (0 : Int) ≤ 12345 ∧
    ((computeFromSeconds 12345).ghatiH = 0 ∧ (computeFromSeconds 12345).muhurtaH = 0) :=
  ⟨by norm_num, convert_hours_zero 12345 (by norm_num)⟩

/-! ### Theorems about the scheduler -/

/-- One effect invocation preserves the handle/interval correspondence. -/
lemma effectRun_liveIntervals (op : Bool) (nowMs srMs : Int)
    (hinduTime : Option HinduTimePayload) (t : SchedState)
    (ih : t.liveIntervals = if t.tickRef then 1 else 0) :
    (effectRun op nowMs srMs hinduTime t).liveIntervals =
      if (effectRun op nowMs srMs hinduTime t).tickRef then 1 else 0 := by
  cases href : t.tickRef <;> cases hop : op <;>
    simp [href] at ih <;>
      simp [effectRun, cleanup, href, hop, ih]

/-- In every reachable state, the number of live intervals is 1 exactly when
the component holds a handle in `tickRef`, and 0 otherwise. -/
lemma reachable_liveIntervals (st : SchedState) (h : Reachable st) :
    st.liveIntervals = if st.tickRef then 1 else 0 := by
  induction h with
  | init => rfl
  | step hr hs ih =>
    cases hs with
    | effect op nowMs srMs hinduTime =>
      exact effectRun_liveIntervals op nowMs srMs hinduTime _ ih
    | tick t hlive =>
      simpa [tickEvent] using ih

/-- Claim C2 (counterexample): a tick fired while RUNNING does not take
`elapsedSeconds` to `(old + 1) mod 86400`: there is a reachable RUNNING state
with `tick = 86399` whose next tick yields 86400, not 0. -/
theorem tick_wrap_cex :
    ∃ st : SchedState, Reachable st ∧ 0 < st.liveIntervals ∧ st.tick = some 86399 ∧
      (tickEvent st).tick ≠ some ((86399 + 1) % 86400) := by
  refine ⟨effectRun true 0 0 (some ⟨some (some 86399), some (some 0)⟩) initState,
    Reachable.step Reachable.init
      (SchedStep.effect true 0 0 (some ⟨some (some 86399), some (some 0)⟩) initState),
    ?_, ?_, ?_⟩ <;> decide

/-- Claim C2 (amended): every tick fired while RUNNING sets the new
`elapsedSeconds` to exactly `old + 1`, with no modulo; consequently
`elapsedSeconds` is not confined to `[0, 86400)` — a reachable state attains
the value 86400. -/
theorem tick_increments_unbounded :
    (∀ (st : SchedState) (v : Int), 0 < st.liveIntervals → st.tick = some v →
      (tickEvent st).tick = some (v + 1)) ∧
    (∃ st : SchedState, Reachable st ∧ st.tick = some 86400) := by
  constructor
  · intro st v _ hv
    simp [tickEvent, tickStep, hv]
  · refine ⟨tickEvent (effectRun true 0 0 (some ⟨some (some 86399), some (some 0)⟩) initState),
      Reachable.step
        (Reachable.step Reachable.init
          (SchedStep.effect true 0 0 (some ⟨some (some 86399), some (some 0)⟩) initState))
        (SchedStep.tick _ (by decide)), ?_⟩
    decide

theorem tick_increments_unbounded_witness :
    (tickEvent { liveIntervals := 1, tickRef := true, tick := some 86399 }).tick =
      some 86400 := by
  have h := tick_increments_unbounded.1
    { liveIntervals := 1, tickRef := true, tick := some 86399 } 86399 (by decide) rfl
  simpa using h

/-- Claim C9: in every reachable state there is at most one live repeating
callback; the cleanup that precedes any effect re-invocation removes the
existing callback, so an effect run issued while already RUNNING still leaves
at most one live callback (hence one increment per second, never two). -/
theorem scheduler_single_callback (st : SchedState) (h : Reachable st) :
    st.liveIntervals ≤ 1 ∧ (cleanup st).liveIntervals = 0 ∧
    ∀ (op : Bool) (nowMs srMs : Int) (hinduTime : Option HinduTimePayload),
      (effectRun op nowMs srMs hinduTime st).liveIntervals ≤ 1 := by
  have hinv := reachable_liveIntervals st h
  refine ⟨?_, ?_, ?_⟩
  · by_cases href : st.tickRef = true <;> simp [href] at hinv <;> omega
  · by_cases href : st.tickRef = true <;> simp [cleanup, href] at hinv ⊢ <;> omega
  · intro op nowMs srMs hinduTime
    by_cases hop : op = true <;> by_cases href : st.tickRef = true <;>
      simp [effectRun, cleanup, hop, href] at hinv ⊢ <;> omega

theorem scheduler_single_callback_witness :
    initState.liveIntervals ≤ 1 ∧ (cleanup initState).liveIntervals = 0 ∧
    (effectRun true 0 0 none initState).liveIntervals ≤ 1 :=
  ⟨(scheduler_single_callback initState Reachable.init).1,
   (scheduler_single_callback initState Reachable.init).2.1,
   (scheduler_single_callback initState Reachable.init).2.2 true 0 0 none⟩

/-! ### Theorems about the synchronizer and the fallback source -/

/-- Claim C5: for every anchor `(Tr, Er)` and current wall clock `Tc`, the
starting value is `Er + ⌊(Tc − Tr)/1000⌋`, with no clamping of the delta; in
particular `Er = 100`, `Tc = Tr + 5000 ms` yields 105. -/
theorem sync_initial_formula (nowMs srMs trMs er : Int) :
    initialTick nowMs srMs (some ⟨some (some er), some (some trMs)⟩) =
      some (er + Int.fdiv (nowMs - trMs) 1000) ∧
    initialTick (trMs + 5000) srMs (some ⟨some (some 100), some (some trMs)⟩) =
      some 105 := by
  constructor
  · rfl
  · have h : trMs + 5000 - trMs = (5000 : Int) := by ring
    simp only [initialTick, h]
    decide

/-- Claim C8: when no anchor exists, the starting value is
`⌊(Tc − sunriseToday)/1000⌋`, with 86400 added when that difference is
negative; a wall clock equal to sunrise yields 0, and one second before
sunrise yields 86399. -/
theorem fallback_initial_formula (nowMs srMs : Int) :
    fallbackInitial nowMs srMs =
      (if nowMs - srMs < 0 then Int.fdiv (nowMs - srMs) 1000 + 86400
       else Int.fdiv (nowMs - srMs) 1000) ∧
    fallbackInitial srMs srMs = 0 ∧
    fallbackInitial (srMs - 1000) srMs = 86399 := by
  refine ⟨?_, ?_, ?_⟩
  · simp only [fallbackInitial]
    rw [Int.fdiv_eq_ediv (nowMs - srMs) (by norm_num : (0:Int) ≤ 1000)]
    by_cases hd : (0:Int) ≤ (nowMs - srMs) / 1000
    · rw [if_pos hd, if_neg (by omega)]
    · rw [if_neg hd, if_pos (by omega)]
      norm_num
  · have h : srMs - srMs = (0 : Int) := by ring
    simp only [fallbackInitial, h]
    decide
  · have h : srMs - 1000 - srMs = (-1000 : Int) := by ring
    simp only [fallbackInitial, h]
    decide

/-- Claim C4: the divergence at a malformed anchor.  A payload whose fields
pass the truthiness guard but do not parse (`now_local_iso` not a timestamp,
or `seconds_since_sunrise` not a number) takes the anchor branch and produces
a `NaN` tick value (`none`), whereas a missing anchor produces the fallback
starting value — the two behaviours differ, contrary to the claim. -/
theorem malformed_anchor_nan_tick :
    initialTick 0 0 (some ⟨some (some 100), some none⟩) = none ∧
    initialTick 0 0 (some ⟨some none, some (some 0)⟩) = none ∧
    initialTick 0 0 none = some (fallbackInitial 0 0) ∧
    initialTick 0 0 (some ⟨some (some 100), some none⟩) ≠ initialTick 0 0 none := by
  decide

/-! ### Theorems about the presentation mapping -/

/-- Claim C3 (counterexample): with a live breakdown available, the ghati
count row still renders the server-snapshot count when it is present — at a
snapshot count of 5 and a live breakdown for 0 elapsed seconds, the rendered
value is the snapshot's 5, not the live 0. -/
theorem render_precedence_cex :
    renderGhatiCount
      (some ⟨none, some 5, none, none, none, none, none, none⟩)
      (some (computeFromSeconds 0)) ≠
    RVal.num (computeFromSeconds 0).ghatiCount := by decide

/-- Claim C3 (amended): once a live breakdown exists, the seconds field, both
H:M:S fields and the total-prana field render the live derived value; but the
ghati count, muhurta count, vinādi and prāṇa fields prefer the server
snapshot whenever its field is present, using the live value only when that
snapshot field is absent; the placeholder appears when neither side has a
value. -/
theorem render_precedence (h : HinduSnapshot) (d : UnitBreakdown) :
    renderSeconds (some h) (some d) = RVal.num d.seconds ∧
    renderGhatiHMS (some h) (some d) =
      RVal.str (pad d.ghatiH 2 ++ ":" ++ pad d.ghatiM 2 ++ ":" ++ pad d.ghatiS 2) ∧
    renderMuhurtaHMS (some h) (some d) =
      RVal.str (pad d.muhurtaH 2 ++ ":" ++ pad d.muhurtaM 2 ++ ":" ++ pad d.muhurtaS 2) ∧
    renderTotalPranas (some h) (some d) = RVal.num d.totalPranas ∧
    (∀ c, h.ghaTi_count = some c → renderGhatiCount (some h) (some d) = RVal.num c) ∧
    (h.ghaTi_count = none → renderGhatiCount (some h) (some d) = RVal.num d.ghatiCount) ∧
    (∀ c, h.muhurta_count = some c → renderMuhurtaCount (some h) (some d) = RVal.num c) ∧
    (h.muhurta_count = none → renderMuhurtaCount (some h) (some d) = RVal.num d.muhurtaCount) ∧
    (∀ c, h.vinadi_in_current_ghaTi = some c → renderVinadi (some h) (some d) = RVal.num c) ∧
    (h.vinadi_in_current_ghaTi = none →
      renderVinadi (some h) (some d) = RVal.num d.vinadiInGhati) ∧
    (∀ c, h.prana_in_current_ghaTi = some c → renderPrana (some h) (some d) = RVal.num c) ∧
    (h.prana_in_current_ghaTi = none →
      renderPrana (some h) (some d) = RVal.num d.pranaInGhati) ∧
    renderSeconds none none = RVal.dash ∧
    renderGhatiCount none none = RVal.dash := by
  refine ⟨rfl, rfl, rfl, rfl, ?_, ?_, ?_, ?_, ?_, ?_, ?_, ?_, rfl, rfl⟩ <;>
    intro c1 <;> try intro c2
  all_goals first
    | simp [renderGhatiCount, c1]
    | simp [renderMuhurtaCount, c1]
    | simp [renderVinadi, c1]
    | simp [renderPrana, c1]
    | (simp [renderGhatiCount, c2])
    | (simp [renderMuhurtaCount, c2])
    | (simp [renderVinadi, c2])
    | (simp [renderPrana, c2])

theorem render_precedence_witness :
    renderGhatiCount
      (some ⟨none, some 7, none, none, none, none, none, none⟩)
      (some (breakdownOf 0)) = RVal.num 7 :=
  (render_precedence ⟨none, some 7, none, none, none, none, none, none⟩
    (breakdownOf 0)).2.2.2.2.1 7 rfl

end Panchang
